import Mathlib

/-!
Verification of the route-geometry normalization and GPX pipeline of the
hikingRoutesGPT repository (file `app/app/utils.py`).

The upstream provider responses are JSON values manipulated with Python
dict/list duck typing, so we embed them as an inductive JSON-like type `J`.
Python numeric values are modelled exactly: `int` by `Int`, `float` by `ℚ`
(the decoder only divides by powers of ten, so rationals model the intended
real arithmetic; all claims settled here are structural, not about binary
rounding).  A Python function that can raise is embedded as `Except`; a
block whose exceptions are caught and discarded by the source is embedded
as `Option` with `none` for the caught-exception path.
-/

set_option autoImplicit false

namespace HikingRoutes

/-- JSON-like values as produced by `response.json()` in the source:
`null`, booleans, integers, floats (modelled as rationals), strings,
arrays and objects (association lists, first match wins, as Python dicts
with unique keys). -/
inductive J where
| null : J
| bool : Bool → J
| int : Int → J
| num : ℚ → J
| str : String → J
| arr : List J → J
| obj : List (String × J) → J

/-- Python `d.get(k)` on an association list: first matching key. -/
def lookupKV (k : String) : List (String × J) → Option J
| [] => none
| (k0, v) :: rest => if k0 = k then some v else lookupKV k rest

/-- Python `d.get(k)` where a missing key yields `None` (our `J.null`);
on a non-dict value `.get` would raise, but every use below is guarded by
an `isinstance(_, dict)` test in the source, so non-objects map to `null`. -/
def J.getd (v : J) (k : String) : J :=
  match v with
  | J.obj kvs => (lookupKV k kvs).getD J.null
  | _ => J.null

/-- Python truthiness of a JSON value (`if x:`). -/
def J.truthy : J → Bool
| J.null => false
| J.bool b => b
| J.int n => n != 0
| J.num q => q != 0
| J.str s => !(s == "")
| J.arr xs => !xs.isEmpty
| J.obj kvs => !kvs.isEmpty

/-- Whether the value is a Python dict. -/
def J.isObj : J → Bool
| J.obj _ => true
| _ => false

/-- Whether the value is a Python str. -/
def J.isStr : J → Bool
| J.str _ => true
| _ => false

/-- Whether the value is a Python list. -/
def J.isArr : J → Bool
| J.arr _ => true
| _ => false

/-! ## Polyline decoding (`_decode_polyline`, utils.py lines 13-48) -/

/-- One signed-varint read of the source's inner `while True` loop:
`b = ord(encoded[index]) - 63 - 1; result += b << shift; shift += 5;
break when b < 0x1f`.  The input is the remaining character codes; running
off the end of the string is Python's `IndexError`, embedded as `.error`. -/
def readVarint : List Int → Int → Nat → Except Unit (Int × List Int)
| [], _, _ => Except.error ()
| c :: rest, acc, shift =>
  if c - 64 < 31 then Except.ok (acc + (c - 64) * 2 ^ shift, rest)
  else readVarint rest (acc + (c - 64) * 2 ^ shift) (shift + 5)

/-- Sign decoding of one varint result:
`~(result >> 1) if result & 1 else (result >> 1)` with Python's
floor-division shift and two's-complement `& 1`. -/
def decodeSigned (r : Int) : Int :=
  if r % 2 = 1 then -(Int.fdiv r 2) - 1 else Int.fdiv r 2

theorem readVarint_length : ∀ (s : List Int) (a : Int) (k : Nat) (r : Int) (rest : List Int),
    readVarint s a k = Except.ok (r, rest) → rest.length < s.length := by
  intro s
  induction s with
  | nil => intro a k r rest h; simp [readVarint] at h
  | cons c s0 ih =>
    intro a k r rest h
    unfold readVarint at h
    by_cases hb : c - 64 < 31
    · simp only [hb, if_true] at h
      cases h
      simp
    · simp only [hb, if_false] at h
      exact Nat.lt_trans (ih _ _ _ _ h) (Nat.lt_succ_self _)

/-- The source's outer `while index < len(encoded)` loop: read a latitude
delta then a longitude delta, update the accumulators, append
`(lat / factor, lon / factor)`. -/
def decodeLoop (factor : ℚ) (s : List Int) (lat lon : Int) (acc : List (ℚ × ℚ)) :
    Except Unit (List (ℚ × ℚ)) :=
  match s with
  | [] => Except.ok acc.reverse
  | c :: rest =>
    match h1 : readVarint (c :: rest) 1 0 with
    | Except.error _ => Except.error ()
    | Except.ok (r1, s1) =>
      match h2 : readVarint s1 1 0 with
      | Except.error _ => Except.error ()
      | Except.ok (r2, s2) =>
        decodeLoop factor s2 (lat + decodeSigned r1) (lon + decodeSigned r2)
          ((((lat + decodeSigned r1 : Int) : ℚ) / factor,
            ((lon + decodeSigned r2 : Int) : ℚ) / factor) :: acc)
termination_by s.length
decreasing_by
  have hA := readVarint_length _ _ _ _ _ h1
  have hB := readVarint_length _ _ _ _ _ h2
  simp only [List.length_cons] at hA hB ⊢
  omega

/-- Character codes of a Python string (`ord` of each character). -/
def strCodes (s : String) : List Int := s.data.map (fun c => (c.toNat : Int))

/-- The `_decode_polyline` function: returns `(lat, lon)` pairs in decimal
degrees, or an error when the scan runs off the end of the input
(Python raises `IndexError`, the spec's `MalformedPolylineError`). -/
def decodePolyline (encoded : String) (precision : Nat) : Except Unit (List (ℚ × ℚ)) :=
  decodeLoop ((10 : ℚ) ^ precision) (strCodes encoded) 0 0 []

/-- Boolean success test for an `Except` computation. -/
def isOkE {ε α : Type} : Except ε α → Bool
| Except.ok _ => true
| Except.error _ => false

/-! ## Normalization (`ors_hiking_route`, utils.py lines 114-151) -/

/-- Branch 1 guard of the normalizer (utils.py line 116):
`isinstance(data, dict) and data.get("type") == "FeatureCollection" and data.get("features")`. -/
def isFCWithFeatures (data : J) : Bool :=
  match data with
  | J.obj kvs =>
    (match lookupKV "type" kvs with
     | some (J.str t) => t == "FeatureCollection"
     | _ => false)
    && J.truthy ((lookupKV "features" kvs).getD J.null)
  | _ => false

/-- The single-LineString FeatureCollection the normalizer builds
(utils.py lines 137-146 and 201-206). -/
def mkFC (coords : J) : J :=
  J.obj [("type", J.str "FeatureCollection"),
         ("features", J.arr [J.obj
           [("type", J.str "Feature"),
            ("geometry", J.obj [("type", J.str "LineString"), ("coordinates", coords)]),
            ("properties", J.obj [])]])]

/-- Remapping of decoded `(lat, lon)` pairs to GeoJSON `[lon, lat]` arrays:
`[[lon, lat] for (lat, lon) in latlon]`. -/
def latlonToCoordsJ (latlon : List (ℚ × ℚ)) : J :=
  J.arr (latlon.map (fun p => J.arr [J.num p.2, J.num p.1]))

/-- The `try` block of utils.py lines 120-146: probe the non-GeoJSON
`routes` shape and build a FeatureCollection.  Every raised exception
(`TypeError`/`AttributeError` from duck typing, the explicit
`ValueError("Unsupported ORS geometry format")`, a failed polyline decode)
is caught by the source's `except Exception: pass`, so a caught exception
is embedded as `none`. -/
def routesBranch (data : J) : Option J :=
  match data with
  | J.obj _ =>
    let routes := J.getd data "routes"
    if routes.truthy then
      match routes with
      | J.arr (r0 :: _) =>
        match r0 with
        | J.obj _ =>
          match J.getd r0 "geometry" with
          | J.obj gkvs =>
            if ((lookupKV "coordinates" gkvs).getD J.null).truthy then
              some (mkFC ((lookupKV "coordinates" gkvs).getD J.null))
            else none
          | J.str s =>
            match decodePolyline s 5 with
            | Except.ok latlon => some (mkFC (latlonToCoordsJ latlon))
            | Except.error _ =>
              match decodePolyline s 6 with
              | Except.ok latlon => some (mkFC (latlonToCoordsJ latlon))
              | Except.error _ => none
          | _ => none
        | _ => none
      | _ => none
    else none
  | _ => none

/-- The normalization section of `ors_hiking_route` (utils.py lines
114-151), after the HTTP call: pass a FeatureCollection through, else try
the `routes` shape, else fall back to returning the input unchanged
(line 151, reached both when nothing matched and when the `try` block
raised).  This section of the source never raises. -/
def ors_hiking_route_normalize (data : J) : J :=
  if isFCWithFeatures data then data
  else
    match routesBranch data with
    | some fc => fc
    | none => data

/-! ## Geocoder coordinate selection (`geocode_os_names`, utils.py lines 74-80) -/

/-- The reprojection decision of `geocode_os_names`: `transform` stands for
`pyproj.Transformer(EPSG 27700 → EPSG 4326, always_xy).transform`, an
external capability returning `(lon, lat)`.  The function returns the
`(lat, lon)` pair the source returns. -/
def geocode_select (transform : ℚ → ℚ → ℚ × ℚ) (x y : ℚ) : ℚ × ℚ :=
  if 180 < |x| ∨ 90 < |y| then
    ((transform x y).2, (transform x y).1)
  else
    (y, x)

/-! ## Waypoint snapping (`ors_hiking_route_with_waypoints`, utils.py lines 208-219) -/

/-- Python `isinstance(idx, int)` with the value of the index when it is
one.  Booleans are a subclass of `int` in Python (`True` indexes like `1`),
so they are accepted here exactly as the source accepts them. -/
def asIntIdx : J → Option Int
| J.int n => some n
| J.bool b => some (if b then 1 else 0)
| _ => none

/-- Python `for x in v`: lists iterate their elements, strings their
characters, dicts their keys; other values raise `TypeError`. -/
def pyElems : J → Option (List J)
| J.arr xs => some xs
| J.str s => some (s.data.map (fun c => J.str (String.singleton c)))
| J.obj kvs => some (kvs.map (fun kv => J.str kv.1))
| _ => none

/-- The snapped-waypoint extraction block (utils.py lines 209-219).  The
route's coordinate sequence is the `coords` list of `[lon, lat]` pairs;
`wayPoints` is the raw `route0.get("way_points")` value.  The source wraps
the whole block in `try/except` and resets to `[]` on any exception, so a
non-iterable hint value yields `[]`; each integer in-range index `i`
appends `(lat, lon) = swap(coords[i])`, all other hints are skipped. -/
def snapStep (coords : List (ℚ × ℚ)) (acc : List (ℚ × ℚ)) (j : J) : List (ℚ × ℚ) :=
  match asIntIdx j with
  | some n =>
    if 0 ≤ n && n < (coords.length : Int) then
      match coords.get? n.toNat with
      | some p => acc ++ [(p.2, p.1)]
      | none => acc
    else acc
  | none => acc

def snap_waypoints (coords : List (ℚ × ℚ)) (wayPoints : J) : List (ℚ × ℚ) :=
  let wpIdx := if wayPoints.truthy then wayPoints else J.arr []
  match pyElems wpIdx with
  | none => []
  | some idxs => idxs.foldl (snapStep coords) []

/-- Specification-side view of one loop iteration of the snapper: the
point contributed by one index hint, if any. -/
def snapOne (coords : List (ℚ × ℚ)) (j : J) : Option (ℚ × ℚ) :=
  match asIntIdx j with
  | some n =>
    if 0 ≤ n && n < (coords.length : Int) then
      (coords.get? n.toNat).map (fun p => (p.2, p.1))
    else none
  | none => none

/-! ## GPX serialization (`geojson_to_gpx`, utils.py lines 222-276) -/

/-- Python `v[0]`: first element of a list or first character of a string;
empty indexing raises `IndexError`, dicts raise `KeyError` (no integer
keys occur in these inputs), other values `TypeError`. -/
def pyIndex0 : J → Except String J
| J.arr (x :: _) => Except.ok x
| J.arr [] => Except.error "IndexError"
| J.str s =>
  match s.data with
  | c :: _ => Except.ok (J.str (String.singleton c))
  | [] => Except.error "IndexError"
| J.obj _ => Except.error "KeyError"
| _ => Except.error "TypeError"

/-- Python tuple unpacking `lon, lat = item`: a two-element list, a
two-character string or a two-key dict (which unpacks to its keys)
succeeds; anything else raises. -/
def unpack2 : J → Except String (J × J)
| J.arr [a, b] => Except.ok (a, b)
| J.arr _ => Except.error "ValueError: unpack"
| J.str s =>
  match s.data with
  | [c1, c2] => Except.ok (J.str (String.singleton c1), J.str (String.singleton c2))
  | _ => Except.error "ValueError: unpack"
| J.obj [kv1, kv2] => Except.ok (J.str kv1.1, J.str kv2.1)
| J.obj _ => Except.error "ValueError: unpack"
| _ => Except.error "TypeError"

/-- Sequential unpacking of every item of the `for lon, lat in coords`
loop; the first failure propagates, as the loop's exception would. -/
def unpackAll : List J → Except String (List (J × J))
| [] => Except.ok []
| x :: xs =>
  match unpack2 x with
  | Except.error e => Except.error e
  | Except.ok y =>
    match unpackAll xs with
    | Except.error e => Except.error e
    | Except.ok ys => Except.ok (y :: ys)

/-- The fixed GPX header emitted by the source (utils.py lines 265-269). -/
def gpx_header : String :=
  "<?xml version=\"1.0\" encoding=\"UTF-8\"?>\n<gpx version=\"1.1\" creator=\"HikingRoutesGPT\" xmlns=\"http://www.topografix.com/GPX/1/1\">\n<trk>\n<trkseg>\n"

/-- The fixed GPX footer (utils.py line 270). -/
def gpx_footer : String := "</trkseg>\n</trk>\n</gpx>\n"

/-- One track point of the output, from an unpacked `(lon, lat)` item:
the f-string of utils.py line 274.  `fmt` is the runtime's default
value-to-string formatting, left abstract (the spec fixes no decimal
formatting). -/
def trkptLine (fmt : J → String) (p : J × J) : String :=
  "  <trkpt lat=\"" ++ fmt p.2 ++ "\" lon=\"" ++ fmt p.1 ++ "\"></trkpt>\n"

/-- The rendering tail of `geojson_to_gpx` (utils.py lines 265-276):
iterate the resolved coordinates, unpack each as `(lon, lat)`, join header,
track points and footer. -/
def gpx_render (fmt : J → String) (coords : J) : Except String String :=
  match pyElems coords with
  | none => Except.error "TypeError: not iterable"
  | some items =>
    match unpackAll items with
    | Except.error e => Except.error e
    | Except.ok pairs =>
      Except.ok (String.join ([gpx_header] ++ pairs.map (trkptLine fmt) ++ [gpx_footer]))

/-- Python `k in d` for a dict. -/
def containsKey (kvs : List (String × J)) (k : String) : Bool :=
  kvs.any (fun kv => kv.1 == k)

/-- The inner `extract_coords` helper (utils.py lines 227-236):
`LineString` coordinates verbatim, first sub-line of a non-empty
`MultiLineString`, otherwise
`ValueError("Unsupported GeoJSON geometry for GPX conversion")`.
A missing `geometry` key defaults to the empty dict; a non-dict geometry
makes the `.get` calls raise `AttributeError`. -/
def extract_coords (feature : J) : Except String J :=
  match feature with
  | J.obj kvs =>
    match (lookupKV "geometry" kvs).getD (J.obj []) with
    | J.obj gkvs =>
      let coords := (lookupKV "coordinates" gkvs).getD (J.arr [])
      if (match lookupKV "type" gkvs with
          | some (J.str t) => t == "LineString"
          | _ => false) then
        Except.ok coords
      else if (match lookupKV "type" gkvs with
               | some (J.str t) => t == "MultiLineString"
               | _ => false) && coords.truthy then
        pyIndex0 coords
      else Except.error "Unsupported GeoJSON geometry for GPX conversion"
    | _ => Except.error "AttributeError"
  | _ => Except.error "AttributeError"

/-- The `geojson_to_gpx` function (utils.py lines 222-276).  The raw
`routes` shape has precedence; else a truthy `features` list contributes
its first feature; else a bare `Feature`; else
`ValueError("Invalid GeoJSON for GPX conversion")`.  Unlike the
normalizer, exceptions here propagate to the caller.  Non-dict inputs
fail on the duck-typed probing. -/
def geojson_to_gpx (fmt : J → String) (g : J) : Except String String :=
  match g with
  | J.obj kvs =>
    if containsKey kvs "routes" && (J.getd g "routes").truthy then
      match J.getd g "routes" with
      | J.arr (r0 :: _) =>
        match r0 with
        | J.obj _ =>
          match J.getd r0 "geometry" with
          | J.obj gkvs =>
            if ((lookupKV "coordinates" gkvs).getD J.null).truthy then
              gpx_render fmt ((lookupKV "coordinates" gkvs).getD J.null)
            else Except.error "Unsupported ORS geometry for GPX conversion"
          | J.str s =>
            match decodePolyline s 5 with
            | Except.ok latlon => gpx_render fmt (latlonToCoordsJ latlon)
            | Except.error _ =>
              match decodePolyline s 6 with
              | Except.ok latlon => gpx_render fmt (latlonToCoordsJ latlon)
              | Except.error _ => Except.error "IndexError"
          | _ => Except.error "Unsupported ORS geometry for GPX conversion"
        | _ => Except.error "AttributeError"
      | _ => Except.error "TypeError"
    else
      if (J.getd g "features").truthy then
        match pyIndex0 (J.getd g "features") with
        | Except.error e => Except.error e
        | Except.ok f0 =>
          match extract_coords f0 with
          | Except.error e => Except.error e
          | Except.ok coords => gpx_render fmt coords
      else
        if (match lookupKV "type" kvs with
            | some (J.str t) => t == "Feature"
            | _ => false) then
          match extract_coords g with
          | Except.error e => Except.error e
          | Except.ok coords => gpx_render fmt coords
        else Except.error "Invalid GeoJSON for GPX conversion"
  | _ => Except.error "TypeError"

/-! ## Characterization helpers used in theorem statements -/

/-- Complete-varint grammar: consume one varint chunk (a possibly empty
run of continuation codes, `c - 64 ≥ 31`, ended by a terminating code),
returning the remaining codes, or `none` when the input ends inside the
chunk.  This characterizes, independently of the decoder's arithmetic,
the inputs on which the byte scan terminates within bounds. -/
def completeVarint : List Int → Option (List Int)
| [] => none
| c :: rest => if c - 64 < 31 then some rest else completeVarint rest

theorem completeVarint_length : ∀ (s rest : List Int),
    completeVarint s = some rest → rest.length < s.length := by
  intro s
  induction s with
  | nil => intro rest h; simp [completeVarint] at h
  | cons c s0 ih =>
    intro rest h
    unfold completeVarint at h
    by_cases hb : c - 64 < 31
    · simp only [hb, if_true, Option.some.injEq] at h
      simp [← h]
    · simp only [hb, if_false] at h
      exact Nat.lt_trans (ih _ h) (Nat.lt_succ_self _)

/-- A complete polyline is a sequence of latitude/longitude varint pairs:
the structural notion of "does not end mid-sequence" from the claim. -/
def completePolyline (s : List Int) : Bool :=
  match s with
  | [] => true
  | c :: rest =>
    match h1 : completeVarint (c :: rest) with
    | none => false
    | some s1 =>
      match h2 : completeVarint s1 with
      | none => false
      | some s2 => completePolyline s2
termination_by s.length
decreasing_by
  have hA := completeVarint_length _ _ h1
  have hB := completeVarint_length _ _ h2
  simp only [List.length_cons] at hA hB ⊢
  omega

/-- Geometry value of the first feature of a FeatureCollection-shaped
value, when present. -/
def firstFeatureGeometry (g : J) : Option J :=
  match g with
  | J.obj kvs =>
    match lookupKV "features" kvs with
    | some (J.arr (f :: _)) =>
      match f with
      | J.obj fkvs => lookupKV "geometry" fkvs
      | _ => none
    | _ => none
  | _ => none

/-- Declared type tag of a geometry object, when present. -/
def geomTypeName (g : J) : Option String :=
  match g with
  | J.obj kvs =>
    match lookupKV "type" kvs with
    | some (J.str t) => some t
    | _ => none
  | _ => none

/-- A GeoJSON Feature with the given geometry type tag and coordinates,
used as a concrete test input shape. -/
def mkFeature (gt : String) (cs : J) : J :=
  J.obj [("type", J.str "Feature"),
         ("geometry", J.obj [("type", J.str gt), ("coordinates", cs)])]

/-- A FeatureCollection wrapping the given feature list, used as a
concrete test input shape. -/
def mkFCof (features : List J) : J :=
  J.obj [("type", J.str "FeatureCollection"), ("features", J.arr features)]

/-- LineString coordinate list of the first feature of a
FeatureCollection-shaped value, when it is an array. -/
def fcLineCoords (g : J) : Option (List J) :=
  match firstFeatureGeometry g with
  | some (J.obj gkvs) =>
    match lookupKV "coordinates" gkvs with
    | some (J.arr cs) => some cs
    | _ => none
  | _ => none

/-! ## Shared computation lemmas -/

theorem normalize_not_fc (data : J) (hfc : isFCWithFeatures data = false) :
    ors_hiking_route_normalize data =
      (match routesBranch data with
       | some fc => fc
       | none => data) := by
  unfold ors_hiking_route_normalize
  rw [hfc]
  simp

theorem normalize_of_branch_none (data : J) (hfc : isFCWithFeatures data = false)
    (hb : routesBranch data = none) : ors_hiking_route_normalize data = data := by
  rw [normalize_not_fc data hfc, hb]

theorem normalize_of_branch_some (data fc : J) (hfc : isFCWithFeatures data = false)
    (hb : routesBranch data = some fc) : ors_hiking_route_normalize data = fc := by
  rw [normalize_not_fc data hfc, hb]

theorem routesBranch_dict_geom (kvs r0kvs gkvs : List (String × J)) (rs : List J) (c : J)
    (hr : lookupKV "routes" kvs = some (J.arr (J.obj r0kvs :: rs)))
    (hg : lookupKV "geometry" r0kvs = some (J.obj gkvs))
    (hc : lookupKV "coordinates" gkvs = some c)
    (ht : c.truthy = true) :
    routesBranch (J.obj kvs) = some (mkFC c) := by
  unfold routesBranch
  cases c <;> simp_all [J.getd, J.truthy]

theorem routesBranch_str_geom (kvs r0kvs : List (String × J)) (rs : List J) (s : String)
    (latlon : List (ℚ × ℚ))
    (hr : lookupKV "routes" kvs = some (J.arr (J.obj r0kvs :: rs)))
    (hg : lookupKV "geometry" r0kvs = some (J.str s))
    (hd : decodePolyline s 5 = Except.ok latlon) :
    routesBranch (J.obj kvs) = some (mkFC (latlonToCoordsJ latlon)) := by
  unfold routesBranch
  simp only [J.getd, hr, hg, Option.getD_some, J.truthy, List.isEmpty_cons,
    Bool.not_false, if_true, hd]

theorem fcLineCoords_mkFC (cs : List J) : fcLineCoords (mkFC (J.arr cs)) = some cs := rfl

/-! ## Claim C1 -/

/-- Claim C1 (counterexample): the claim asserts that an input whose
`routes[0].geometry` is neither a dict with coordinates nor a string makes
normalization fail with an error raised to the caller.  In the source the
`ValueError("Unsupported ORS geometry format")` is caught by
`except Exception: pass` and line 151 returns the input unchanged, so at
the concrete input with geometry `42` the normalizer returns the input
itself and raises nothing. -/
theorem c1_counterexample :
    ors_hiking_route_normalize
        (J.obj [("routes", J.arr [J.obj [("geometry", J.int 42)]])]) =
      J.obj [("routes", J.arr [J.obj [("geometry", J.int 42)]])] := by
  rfl

/-- Claim C1 (amended): in `ors_hiking_route` nothing is raised to the
caller: for every input matching none of the recognized shapes — a
non-dict value; a dict that is not a FeatureCollection and has no truthy
`routes`; a truthy non-list `routes`; a non-dict `routes[0]`; a
`routes[0].geometry` that is a dict with falsy `coordinates`, an
undecodable string, or neither a dict nor a string — the internal
exception (when one is raised at all) is swallowed and the input is
returned unchanged. -/
theorem c1_unrecognized_input_returned_unchanged (data : J)
    (hfc : isFCWithFeatures data = false) :
    (data.isObj = false → ors_hiking_route_normalize data = data)
    ∧ (∀ kvs, data = J.obj kvs → (J.getd data "routes").truthy = false →
        ors_hiking_route_normalize data = data)
    ∧ (∀ kvs r, data = J.obj kvs → J.getd data "routes" = r → r.truthy = true →
        r.isArr = false → ors_hiking_route_normalize data = data)
    ∧ (∀ kvs r0 rs, data = J.obj kvs → J.getd data "routes" = J.arr (r0 :: rs) →
        r0.isObj = false → ors_hiking_route_normalize data = data)
    ∧ (∀ kvs r0kvs rs gkvs, data = J.obj kvs →
        J.getd data "routes" = J.arr (J.obj r0kvs :: rs) →
        J.getd (J.obj r0kvs) "geometry" = J.obj gkvs →
        (J.getd (J.obj gkvs) "coordinates").truthy = false →
        ors_hiking_route_normalize data = data)
    ∧ (∀ kvs r0kvs rs s, data = J.obj kvs →
        J.getd data "routes" = J.arr (J.obj r0kvs :: rs) →
        J.getd (J.obj r0kvs) "geometry" = J.str s →
        decodePolyline s 5 = Except.error () →
        decodePolyline s 6 = Except.error () →
        ors_hiking_route_normalize data = data)
    ∧ (∀ kvs r0kvs rs g, data = J.obj kvs →
        J.getd data "routes" = J.arr (J.obj r0kvs :: rs) →
        J.getd (J.obj r0kvs) "geometry" = g →
        g.isObj = false → g.isStr = false →
        ors_hiking_route_normalize data = data) := by
  refine ⟨?_, ?_, ?_, ?_, ?_, ?_, ?_⟩
  · intro h
    apply normalize_of_branch_none data hfc
    cases data <;> simp_all [routesBranch, J.isObj]
  · rintro kvs rfl htr
    apply normalize_of_branch_none _ hfc
    unfold routesBranch
    simp [htr]
  · rintro kvs r rfl hr htr harr
    apply normalize_of_branch_none _ hfc
    unfold routesBranch
    rw [hr]
    cases r <;> simp_all [J.isArr, J.truthy]
  · rintro kvs r0 rs rfl hr hobj
    apply normalize_of_branch_none _ hfc
    unfold routesBranch
    rw [hr]
    cases r0 <;> simp_all [J.isObj, J.truthy]
  · rintro kvs r0kvs rs gkvs rfl hr hg hcf
    apply normalize_of_branch_none _ hfc
    unfold routesBranch
    rw [hr]
    simp only [J.truthy, List.isEmpty_cons, Bool.not_false, if_true]
    rw [hg]
    simp only [J.getd] at hcf
    simp
    exact hcf
  · rintro kvs r0kvs rs s rfl hr hg h5 h6
    apply normalize_of_branch_none _ hfc
    unfold routesBranch
    rw [hr]
    simp only [J.truthy, List.isEmpty_cons, Bool.not_false, if_true]
    rw [hg]
    simp [h5, h6]
  · rintro kvs r0kvs rs g rfl hr hg hobj hstr
    apply normalize_of_branch_none _ hfc
    unfold routesBranch
    rw [hr]
    simp only [J.truthy, List.isEmpty_cons, Bool.not_false, if_true]
    rw [hg]
    cases g <;> simp_all [J.isObj, J.isStr]

/-- Claim C1 (witness for the amended theorem): the unrecognized input
`{"foo": 1}` is returned unchanged. -/
theorem c1_unrecognized_input_returned_unchanged_witness :
    ors_hiking_route_normalize (J.obj [("foo", J.int 1)]) = J.obj [("foo", J.int 1)] := by
  exact (c1_unrecognized_input_returned_unchanged (J.obj [("foo", J.int 1)])
    (by rfl)).2.1 _ rfl (by rfl)

/-! ## Claim C2 -/

/-- Claim C2: on an input with a non-empty `routes` list (that is not
already a FeatureCollection, the higher-precedence branch), the normalizer
reads `routes[0].geometry`; a dict geometry with non-empty `coordinates`
contributes those pairs verbatim, a string geometry is decoded as a
polyline (precision 5; by claim C10 the precision-6 retry is immaterial to
success) and each `(lat, lon)` is remapped to `[lon, lat]`; either way the
result is the single-LineString FeatureCollection `mkFC`. -/
theorem c2_routes_normalization (kvs r0kvs : List (String × J)) (rs : List J)
    (hfc : isFCWithFeatures (J.obj kvs) = false)
    (hr : lookupKV "routes" kvs = some (J.arr (J.obj r0kvs :: rs))) :
    (∀ gkvs c cs, lookupKV "geometry" r0kvs = some (J.obj gkvs) →
        lookupKV "coordinates" gkvs = some (J.arr (c :: cs)) →
        ors_hiking_route_normalize (J.obj kvs) = mkFC (J.arr (c :: cs)))
    ∧ (∀ s latlon, lookupKV "geometry" r0kvs = some (J.str s) →
        decodePolyline s 5 = Except.ok latlon →
        ors_hiking_route_normalize (J.obj kvs) =
          mkFC (J.arr (latlon.map (fun p => J.arr [J.num p.2, J.num p.1])))) := by
  constructor
  · intro gkvs c cs hg hc
    exact normalize_of_branch_some _ _ hfc
      (routesBranch_dict_geom kvs r0kvs gkvs rs (J.arr (c :: cs)) hr hg hc (by simp [J.truthy]))
  · intro s latlon hg hd
    exact normalize_of_branch_some _ _ hfc
      (routesBranch_str_geom kvs r0kvs rs s latlon hr hg hd)

/-- Claim C2 (witness): the concrete example of the claim,
`{"routes":[{"geometry":{"coordinates":[[-0.5,51.5],[-0.6,51.6]]}}]}`,
normalizes to the one-LineString FeatureCollection with those
coordinates. -/
theorem c2_routes_normalization_witness :
    ors_hiking_route_normalize
        (J.obj [("routes", J.arr [J.obj [("geometry",
          J.obj [("coordinates", J.arr [J.arr [J.num (-0.5), J.num 51.5],
            J.arr [J.num (-0.6), J.num 51.6]])])]])]) =
      mkFC (J.arr [J.arr [J.num (-0.5), J.num 51.5],
        J.arr [J.num (-0.6), J.num 51.6]]) := by
  exact (c2_routes_normalization
      [("routes", J.arr [J.obj [("geometry",
        J.obj [("coordinates", J.arr [J.arr [J.num (-0.5), J.num 51.5],
          J.arr [J.num (-0.6), J.num 51.6]])])]])]
      [("geometry", J.obj [("coordinates", J.arr [J.arr [J.num (-0.5), J.num 51.5],
        J.arr [J.num (-0.6), J.num 51.6]])])]
      [] (by rfl) rfl).1
    [("coordinates", J.arr [J.arr [J.num (-0.5), J.num 51.5],
      J.arr [J.num (-0.6), J.num 51.6]])]
    (J.arr [J.num (-0.5), J.num 51.5]) [J.arr [J.num (-0.6), J.num 51.6]] rfl rfl

/-! ## Claim C5 -/

/-- Claim C5: the geocoder coordinate pair `(x, y)` is used directly as
`(longitude, latitude)` — with no reprojection, for every possible
transformer — exactly when `|x| ≤ 180` and `|y| ≤ 90`; otherwise the
EPSG:27700 → EPSG:4326 transformer is applied and its `(lon, lat)` output
returned (as the source's `(lat, lon)` pair). -/
theorem c5_geocode_reprojection_policy (x y : ℚ) :
    (|x| ≤ 180 → |y| ≤ 90 → ∀ t : ℚ → ℚ → ℚ × ℚ, geocode_select t x y = (y, x))
    ∧ ((180 < |x| ∨ 90 < |y|) → ∀ t : ℚ → ℚ → ℚ × ℚ,
        geocode_select t x y = ((t x y).2, (t x y).1)) := by
  constructor
  · intro hx hy t
    unfold geocode_select
    rw [if_neg]
    rintro (h | h) <;> linarith
  · intro h t
    unfold geocode_select
    rw [if_pos h]

/-- Claim C5 (witness): a British-grid pair `(450000, 150000)` goes
through the transformer, while the geographic pair `(-0.5, 51.5)` is used
directly. -/
theorem c5_geocode_reprojection_policy_witness :
    geocode_select (fun _ _ => ((-7 : ℚ)/10, 512/10)) 450000 150000 = (512/10, (-7)/10)
    ∧ geocode_select (fun _ _ => ((-7 : ℚ)/10, 512/10)) (-0.5) 51.5 = (51.5, -0.5) := by
  constructor
  · exact (c5_geocode_reprojection_policy 450000 150000).2
      (by left; rw [abs_of_nonneg] <;> norm_num) _
  · exact (c5_geocode_reprojection_policy (-0.5) 51.5).1
      (by rw [abs_of_nonpos] <;> norm_num) (by rw [abs_of_nonneg] <;> norm_num) _

/-! ## Claim C8 -/

/-- Claim C8: the normalizer passes an already-canonical input through
unchanged — any dict whose `type` is `"FeatureCollection"` with a
non-empty `features` list, even with several features — and is therefore
idempotent on such input. -/
theorem c8_normalize_idempotent (kvs : List (String × J)) (f : J) (fs : List J)
    (ht : lookupKV "type" kvs = some (J.str "FeatureCollection"))
    (hf : lookupKV "features" kvs = some (J.arr (f :: fs))) :
    ors_hiking_route_normalize (J.obj kvs) = J.obj kvs
    ∧ ors_hiking_route_normalize (ors_hiking_route_normalize (J.obj kvs)) =
        ors_hiking_route_normalize (J.obj kvs) := by
  have hfc : isFCWithFeatures (J.obj kvs) = true := by
    simp [isFCWithFeatures, ht, hf, J.truthy]
  have h1 : ors_hiking_route_normalize (J.obj kvs) = J.obj kvs := by
    unfold ors_hiking_route_normalize
    rw [hfc]
    simp
  exact ⟨h1, by rw [h1, h1]⟩

/-- Claim C8 (witness): a two-feature FeatureCollection is returned
unchanged and normalization is idempotent on it. -/
theorem c8_normalize_idempotent_witness :
    ors_hiking_route_normalize (J.obj [("type", J.str "FeatureCollection"),
        ("features", J.arr [J.obj [("id", J.int 1)], J.obj [("id", J.int 2)]])]) =
      J.obj [("type", J.str "FeatureCollection"),
        ("features", J.arr [J.obj [("id", J.int 1)], J.obj [("id", J.int 2)]])] := by
  exact (c8_normalize_idempotent
    [("type", J.str "FeatureCollection"),
     ("features", J.arr [J.obj [("id", J.int 1)], J.obj [("id", J.int 2)]])]
    (J.obj [("id", J.int 1)]) [J.obj [("id", J.int 2)]] rfl rfl).1

/-! ## Claim C9 -/

/-- Claim C9 (counterexample): the claim asserts every route produced by
the normalizer has at least 2 points.  The source never enforces this: the
one-point input `{"routes":[{"geometry":{"coordinates":[[0,0]]}}]}` is
accepted and the emitted FeatureCollection's LineString has exactly one
point. -/
theorem c9_counterexample :
    (fcLineCoords (ors_hiking_route_normalize
        (J.obj [("routes", J.arr [J.obj [("geometry",
          J.obj [("coordinates", J.arr [J.arr [J.int 0, J.int 0]])])]])]))).map
      List.length = some 1 := by
  rfl

/-- Claim C9 (amended): the normalizer emits a FeatureCollection whose
LineString carries exactly the resolved coordinate sequence — verbatim in
the dict-geometry branch, and as `[lon, lat]` pairs (reordered from the
decoder's `(lat, lon)`) in the polyline branch — so it has ≥ 2 points
exactly when the input supplies ≥ 2 coordinates; the minimum is not
enforced by the code. -/
theorem c9_line_coords_exactly_resolved (kvs r0kvs : List (String × J)) (rs : List J)
    (hfc : isFCWithFeatures (J.obj kvs) = false)
    (hr : lookupKV "routes" kvs = some (J.arr (J.obj r0kvs :: rs))) :
    (∀ gkvs c cs, lookupKV "geometry" r0kvs = some (J.obj gkvs) →
        lookupKV "coordinates" gkvs = some (J.arr (c :: cs)) →
        fcLineCoords (ors_hiking_route_normalize (J.obj kvs)) = some (c :: cs)
        ∧ (2 ≤ (c :: cs).length ↔ cs ≠ []))
    ∧ (∀ s latlon, lookupKV "geometry" r0kvs = some (J.str s) →
        decodePolyline s 5 = Except.ok latlon →
        fcLineCoords (ors_hiking_route_normalize (J.obj kvs)) =
          some (latlon.map (fun p => J.arr [J.num p.2, J.num p.1]))) := by
  constructor
  · intro gkvs c cs hg hc
    have hn := normalize_of_branch_some _ _ hfc
      (routesBranch_dict_geom kvs r0kvs gkvs rs (J.arr (c :: cs)) hr hg hc (by simp [J.truthy]))
    refine ⟨by rw [hn, fcLineCoords_mkFC], ?_⟩
    cases cs <;> simp
  · intro s latlon hg hd
    have hn := normalize_of_branch_some _ _ hfc
      (routesBranch_str_geom kvs r0kvs rs s latlon hr hg hd)
    rw [hn]
    exact fcLineCoords_mkFC _

/-- Claim C9 (witness for the amended theorem): a two-point dict-geometry
input yields a LineString with exactly those two points. -/
theorem c9_line_coords_exactly_resolved_witness :
    fcLineCoords (ors_hiking_route_normalize
        (J.obj [("routes", J.arr [J.obj [("geometry",
          J.obj [("coordinates", J.arr [J.arr [J.int 1, J.int 2],
            J.arr [J.int 3, J.int 4]])])]])])) =
      some [J.arr [J.int 1, J.int 2], J.arr [J.int 3, J.int 4]] := by
  exact ((c9_line_coords_exactly_resolved
      [("routes", J.arr [J.obj [("geometry",
        J.obj [("coordinates", J.arr [J.arr [J.int 1, J.int 2],
          J.arr [J.int 3, J.int 4]])])]])]
      [("geometry", J.obj [("coordinates", J.arr [J.arr [J.int 1, J.int 2],
        J.arr [J.int 3, J.int 4]])])]
      [] (by rfl) rfl).1
    [("coordinates", J.arr [J.arr [J.int 1, J.int 2], J.arr [J.int 3, J.int 4]])]
    (J.arr [J.int 1, J.int 2]) [J.arr [J.int 3, J.int 4]] rfl rfl).1

/-! ## Claim C4 -/

theorem snapStep_eq_snapOne (coords acc : List (ℚ × ℚ)) (j : J) :
    snapStep coords acc j = acc ++ (snapOne coords j).toList := by
  unfold snapStep snapOne
  cases asIntIdx j with
  | none => simp
  | some n =>
    by_cases hb : (0 ≤ n && n < (coords.length : Int)) = true
    · simp only [hb, if_true]
      cases coords.get? n.toNat <;> simp
    · simp only [Bool.not_eq_true] at hb
      simp [hb]

theorem snap_foldl (coords : List (ℚ × ℚ)) : ∀ (idxs : List J) (acc : List (ℚ × ℚ)),
    idxs.foldl (snapStep coords) acc = acc ++ idxs.filterMap (snapOne coords) := by
  intro idxs
  induction idxs with
  | nil => intro acc; simp
  | cons j t ih =>
    intro acc
    rw [List.foldl_cons, ih, snapStep_eq_snapOne, List.filterMap_cons]
    cases snapOne coords j <;> simp

/-- Claim C4: the snapper never fails on any list of index hints: its
output is exactly the in-order `filterMap` of the hints, where an
in-range integer hint `i` contributes `coords[i]` converted from
`[lon, lat]` to `(lat, lon)`, and out-of-range or non-integer hints
contribute nothing; the empty hint list yields the empty sequence and the
output never has more entries than hints were supplied. -/
theorem c4_snap_tolerant (coords : List (ℚ × ℚ)) (idxs : List J) :
    snap_waypoints coords (J.arr idxs) = idxs.filterMap (snapOne coords)
    ∧ snap_waypoints coords (J.arr []) = []
    ∧ (snap_waypoints coords (J.arr idxs)).length ≤ idxs.length
    ∧ (∀ n : Int, 0 ≤ n → n.toNat < coords.length →
        snapOne coords (J.int n) = (coords.get? n.toNat).map (fun p => (p.2, p.1)))
    ∧ (∀ n : Int, ¬(0 ≤ n ∧ n < (coords.length : Int)) → snapOne coords (J.int n) = none)
    ∧ (∀ j : J, asIntIdx j = none → snapOne coords j = none) := by
  have hmain : ∀ l : List J, snap_waypoints coords (J.arr l) = l.filterMap (snapOne coords) := by
    intro l
    cases l with
    | nil => rfl
    | cons j t =>
      show (j :: t).foldl (snapStep coords) [] = (j :: t).filterMap (snapOne coords)
      rw [snap_foldl]
      simp
  refine ⟨hmain idxs, hmain [], ?_, ?_, ?_, ?_⟩
  · rw [hmain idxs]
    exact List.length_filterMap_le _ _
  · intro n h0 hlt
    unfold snapOne
    have hb : (0 ≤ n && n < (coords.length : Int)) = true := by
      simp only [Bool.and_eq_true, decide_eq_true_eq]
      omega
    simp [asIntIdx, hb]
  · intro n hn
    unfold snapOne
    have hb : (0 ≤ n && n < (coords.length : Int)) = false := by
      simp only [Bool.and_eq_false_iff, decide_eq_false_iff_not]
      omega
    simp [asIntIdx, hb]
  · intro j hj
    unfold snapOne
    rw [hj]

/-- Claim C4 (witness): the spec's own example — hints `[0, 2, 5]` on a
three-point route — yields the points at indices 0 and 2 in `(lat, lon)`
order, silently skipping 5. -/
theorem c4_snap_tolerant_witness :
    snap_waypoints [((0 : ℚ), (1 : ℚ)), (2, 3), (4, 5)]
        (J.arr [J.int 0, J.int 2, J.int 5]) = [(1, 0), (5, 4)] := by
  rw [(c4_snap_tolerant [((0 : ℚ), (1 : ℚ)), (2, 3), (4, 5)]
    [J.int 0, J.int 2, J.int 5]).1]
  rfl

/-! ## Claims C3 and C7 -/

theorem strFoldl_append (l : List String) : ∀ x y : String,
    l.foldl (fun r s => r ++ s) (x ++ y) = x ++ l.foldl (fun r s => r ++ s) y := by
  induction l with
  | nil => intro x y; rfl
  | cons a t ih =>
    intro x y
    simp only [List.foldl_cons]
    rw [String.append_assoc, ih]

theorem strJoin_cons (a : String) (l : List String) :
    String.join (a :: l) = a ++ String.join l := by
  show List.foldl (fun r s => r ++ s) "" (a :: l) =
    a ++ List.foldl (fun r s => r ++ s) "" l
  rw [List.foldl_cons]
  rw [show ("" ++ a) = (a ++ "") by rw [String.empty_append, String.append_empty]]
  exact strFoldl_append l a ""

theorem strJoin_append (l1 l2 : List String) :
    String.join (l1 ++ l2) = String.join l1 ++ String.join l2 := by
  induction l1 with
  | nil =>
    show String.join l2 = String.join [] ++ String.join l2
    rw [show String.join ([] : List String) = "" from rfl, String.empty_append]
  | cons a t ih =>
    simp only [List.cons_append, strJoin_cons, ih, String.append_assoc]

theorem strJoin_sandwich (h f : String) (L : List String) :
    String.join ([h] ++ L ++ [f]) = h ++ String.join L ++ f := by
  rw [strJoin_append, strJoin_append]
  rw [show String.join [h] = h by rw [strJoin_cons]; exact String.append_empty h]
  rw [show String.join [f] = f by rw [strJoin_cons]; exact String.append_empty f]

theorem unpackAll_pairs (pts : List (J × J)) :
    unpackAll (pts.map (fun p => J.arr [p.1, p.2])) = Except.ok pts := by
  induction pts with
  | nil => rfl
  | cons p t ih => simp [unpackAll, unpack2, ih]

theorem gpx_render_pairs (fmt : J → String) (pts : List (J × J)) :
    gpx_render fmt (J.arr (pts.map (fun p => J.arr [p.1, p.2]))) =
      Except.ok (gpx_header ++ String.join (pts.map (trkptLine fmt)) ++ gpx_footer) := by
  unfold gpx_render
  simp only [pyElems, unpackAll_pairs]
  rw [strJoin_sandwich]

theorem gpx_of_mkFC (fmt : J → String) (c : J) :
    geojson_to_gpx fmt (mkFC c) = gpx_render fmt c := rfl

/-- Claim C3: on a canonical route whose LineString has the given
coordinate pairs, the serializer succeeds and its output is exactly the
fixed GPX 1.1 header, one `trkpt` element per coordinate in input order —
each carrying exactly a `lat` attribute (the pair's second component) and
a `lon` attribute (the first component), no elevation and no time — and
the fixed footer. -/
theorem c3_gpx_structure (fmt : J → String) (pts : List (J × J)) :
    geojson_to_gpx fmt (mkFC (J.arr (pts.map (fun p => J.arr [p.1, p.2])))) =
      Except.ok (gpx_header ++ String.join (pts.map (trkptLine fmt)) ++ gpx_footer)
    ∧ (pts.map (trkptLine fmt)).length = pts.length
    ∧ (∀ p : J × J, trkptLine fmt p =
        "  <trkpt lat=\"" ++ fmt p.2 ++ "\" lon=\"" ++ fmt p.1 ++ "\"></trkpt>\n")
    ∧ gpx_header = "<?xml version=\"1.0\" encoding=\"UTF-8\"?>\n<gpx version=\"1.1\" creator=\"HikingRoutesGPT\" xmlns=\"http://www.topografix.com/GPX/1/1\">\n<trk>\n<trkseg>\n"
    ∧ gpx_footer = "</trkseg>\n</trk>\n</gpx>\n" := by
  refine ⟨?_, by simp, fun p => rfl, rfl, rfl⟩
  rw [gpx_of_mkFC, gpx_render_pairs]

/-- Claim C7 (counterexample): the claim asserts that normalization of a
FeatureCollection whose first feature is a two-sub-line MultiLineString
uses only the first sub-line.  The normalizer's FeatureCollection branch
(utils.py lines 115-117) returns the input unchanged instead: the output's
first feature still has geometry type MultiLineString with both sub-lines
(2 sub-lines, 5 points in total), not a first-sub-line LineString. -/
theorem c7_counterexample :
    ors_hiking_route_normalize (mkFCof [mkFeature "MultiLineString"
        (J.arr [J.arr [J.arr [J.int 0, J.int 0], J.arr [J.int 1, J.int 1]],
          J.arr [J.arr [J.int 2, J.int 2], J.arr [J.int 3, J.int 3],
            J.arr [J.int 4, J.int 4]]])]) =
      mkFCof [mkFeature "MultiLineString"
        (J.arr [J.arr [J.arr [J.int 0, J.int 0], J.arr [J.int 1, J.int 1]],
          J.arr [J.arr [J.int 2, J.int 2], J.arr [J.int 3, J.int 3],
            J.arr [J.int 4, J.int 4]]])]
    ∧ (firstFeatureGeometry (ors_hiking_route_normalize
        (mkFCof [mkFeature "MultiLineString"
          (J.arr [J.arr [J.arr [J.int 0, J.int 0], J.arr [J.int 1, J.int 1]],
            J.arr [J.arr [J.int 2, J.int 2], J.arr [J.int 3, J.int 3],
              J.arr [J.int 4, J.int 4]]])]))).bind geomTypeName =
        some "MultiLineString"
    ∧ (fcLineCoords (ors_hiking_route_normalize
        (mkFCof [mkFeature "MultiLineString"
          (J.arr [J.arr [J.arr [J.int 0, J.int 0], J.arr [J.int 1, J.int 1]],
            J.arr [J.arr [J.int 2, J.int 2], J.arr [J.int 3, J.int 3],
              J.arr [J.int 4, J.int 4]]])]))).map List.length = some 2 := by
  exact ⟨rfl, rfl, rfl⟩

theorem gpx_of_feature_mls (fmt : J → String) (x : J) (subs : List J) :
    geojson_to_gpx fmt (mkFeature "MultiLineString" (J.arr (x :: subs))) =
      gpx_render fmt x := rfl

theorem gpx_of_fc_mls (fmt : J → String) (x : J) (subs more : List J) :
    geojson_to_gpx fmt (mkFCof (mkFeature "MultiLineString" (J.arr (x :: subs)) :: more)) =
      gpx_render fmt x := rfl

theorem gpx_of_feature_ls (fmt : J → String) (cs : J) :
    geojson_to_gpx fmt (mkFeature "LineString" cs) = gpx_render fmt cs := rfl

/-- Claim C7 (amended): GPX serialization — for a Feature, and for a
FeatureCollection through its first feature — uses only the first
sub-line of a MultiLineString: the emitted track has exactly one point
per first-sub-line coordinate, whatever the remaining sub-lines are; a
LineString's coordinates are used as-is; any other geometry type fails
with the `ValueError` of utils.py line 236.  The normalizer itself does
not flatten: it returns a MultiLineString FeatureCollection unchanged
(see the counterexample). -/
theorem c7_gpx_first_subline (fmt : J → String) (pts : List (J × J)) (subs more : List J) :
    geojson_to_gpx fmt (mkFeature "MultiLineString"
        (J.arr (J.arr (pts.map (fun p => J.arr [p.1, p.2])) :: subs))) =
      Except.ok (gpx_header ++ String.join (pts.map (trkptLine fmt)) ++ gpx_footer)
    ∧ geojson_to_gpx fmt (mkFCof (mkFeature "MultiLineString"
        (J.arr (J.arr (pts.map (fun p => J.arr [p.1, p.2])) :: subs)) :: more)) =
      Except.ok (gpx_header ++ String.join (pts.map (trkptLine fmt)) ++ gpx_footer)
    ∧ geojson_to_gpx fmt (mkFeature "LineString"
        (J.arr (pts.map (fun p => J.arr [p.1, p.2])))) =
      Except.ok (gpx_header ++ String.join (pts.map (trkptLine fmt)) ++ gpx_footer)
    ∧ (pts.map (trkptLine fmt)).length = pts.length
    ∧ (∀ t : String, t ≠ "LineString" → t ≠ "MultiLineString" → ∀ cs : J,
        geojson_to_gpx fmt (mkFeature t cs) =
          Except.error "Unsupported GeoJSON geometry for GPX conversion")
    ∧ (∀ f : J, ∀ fs : List J,
        ors_hiking_route_normalize (mkFCof (f :: fs)) = mkFCof (f :: fs)) := by
  refine ⟨?_, ?_, ?_, by simp, ?_, ?_⟩
  · rw [gpx_of_feature_mls, gpx_render_pairs]
  · rw [gpx_of_fc_mls, gpx_render_pairs]
  · rw [gpx_of_feature_ls, gpx_render_pairs]
  · intro t h1 h2 cs
    have e1 : (t == "LineString") = false := beq_eq_false_iff_ne.mpr h1
    have e2 : (t == "MultiLineString") = false := beq_eq_false_iff_ne.mpr h2
    have hx : extract_coords (mkFeature t cs) =
        Except.error "Unsupported GeoJSON geometry for GPX conversion" := by
      unfold extract_coords mkFeature
      simp [lookupKV, e1, e2]
    calc geojson_to_gpx fmt (mkFeature t cs)
        = (match extract_coords (mkFeature t cs) with
           | Except.error e => Except.error e
           | Except.ok c => gpx_render fmt c) := rfl
      _ = Except.error "Unsupported GeoJSON geometry for GPX conversion" := by rw [hx]
  · intro f fs
    unfold ors_hiking_route_normalize
    rw [show isFCWithFeatures (mkFCof (f :: fs)) = true by
      simp [isFCWithFeatures, mkFCof, lookupKV, J.truthy]]
    simp

/-- Claim C7 (witness for the amended theorem): a `Point` geometry makes
the serializer fail with the unsupported-geometry error. -/
theorem c7_gpx_first_subline_witness :
    geojson_to_gpx (fun _ => "") (mkFeature "Point" (J.arr [])) =
      Except.error "Unsupported GeoJSON geometry for GPX conversion" := by
  exact (c7_gpx_first_subline (fun _ => "") [] [] []).2.2.2.2.1 "Point"
    (by decide) (by decide) (J.arr [])

/-! ## Claims C6 and C10: decoder lemmas -/

theorem decodeLoop_nil (factor : ℚ) (lat lon : Int) (acc : List (ℚ × ℚ)) :
    decodeLoop factor [] lat lon acc = Except.ok acc.reverse :=
  decodeLoop.eq_1 factor lat lon acc

theorem decodeLoop_cons_err1 (factor : ℚ) (c : Int) (rest : List Int) (lat lon : Int)
    (acc : List (ℚ × ℚ)) (h1 : readVarint (c :: rest) 1 0 = Except.error ()) :
    decodeLoop factor (c :: rest) lat lon acc = Except.error () := by
  rw [decodeLoop.eq_2]
  split
  next e heq => rfl
  next r1 s1 heq =>
    rw [h1] at heq
    simp at heq

theorem decodeLoop_cons_err2 (factor : ℚ) (c : Int) (rest : List Int) (lat lon : Int)
    (acc : List (ℚ × ℚ)) (r1 : Int) (s1 : List Int)
    (h1 : readVarint (c :: rest) 1 0 = Except.ok (r1, s1))
    (h2 : readVarint s1 1 0 = Except.error ()) :
    decodeLoop factor (c :: rest) lat lon acc = Except.error () := by
  rw [decodeLoop.eq_2]
  split
  next e heq =>
    simp only [h1] at heq
    exact Except.noConfusion heq
  next r1x s1x heq =>
    rw [h1] at heq
    simp only [Except.ok.injEq, Prod.mk.injEq] at heq
    obtain ⟨hr, hs⟩ := heq
    subst hr
    subst hs
    split
    next e2 heq2 => rfl
    next r2x s2x heq2 =>
      rw [h2] at heq2
      simp at heq2

theorem decodeLoop_cons_ok (factor : ℚ) (c : Int) (rest : List Int) (lat lon : Int)
    (acc : List (ℚ × ℚ)) (r1 r2 : Int) (s1 s2 : List Int)
    (h1 : readVarint (c :: rest) 1 0 = Except.ok (r1, s1))
    (h2 : readVarint s1 1 0 = Except.ok (r2, s2)) :
    decodeLoop factor (c :: rest) lat lon acc =
      decodeLoop factor s2 (lat + decodeSigned r1) (lon + decodeSigned r2)
        ((((lat + decodeSigned r1 : Int) : ℚ) / factor,
          ((lon + decodeSigned r2 : Int) : ℚ) / factor) :: acc) := by
  rw [decodeLoop.eq_2]
  split
  next e heq =>
    rw [h1] at heq
    simp at heq
  next r1x s1x heq =>
    rw [h1] at heq
    simp only [Except.ok.injEq, Prod.mk.injEq] at heq
    obtain ⟨hr, hs⟩ := heq
    subst hr
    subst hs
    split
    next e2 heq2 =>
      rw [h2] at heq2
      simp at heq2
    next r2x s2x heq2 =>
      rw [h2] at heq2
      simp only [Except.ok.injEq, Prod.mk.injEq] at heq2
      obtain ⟨hr2, hs2⟩ := heq2
      subst hr2
      subst hs2
      rfl

theorem completePolyline_nil : completePolyline [] = true :=
  completePolyline.eq_1

theorem completePolyline_cons_none1 (c : Int) (rest : List Int)
    (h1 : completeVarint (c :: rest) = none) : completePolyline (c :: rest) = false := by
  rw [completePolyline.eq_2]
  split
  next heq => rfl
  next s1 heq =>
    rw [h1] at heq
    simp at heq

theorem completePolyline_cons_none2 (c : Int) (rest s1 : List Int)
    (h1 : completeVarint (c :: rest) = some s1) (h2 : completeVarint s1 = none) :
    completePolyline (c :: rest) = false := by
  rw [completePolyline.eq_2]
  split
  next heq =>
    simp only [h1] at heq
    exact Option.noConfusion heq
  next s1x heq =>
    rw [h1] at heq
    simp only [Option.some.injEq] at heq
    subst heq
    split
    next heq2 => rfl
    next s2x heq2 =>
      rw [h2] at heq2
      simp at heq2

theorem completePolyline_cons_step (c : Int) (rest s1 s2 : List Int)
    (h1 : completeVarint (c :: rest) = some s1) (h2 : completeVarint s1 = some s2) :
    completePolyline (c :: rest) = completePolyline s2 := by
  rw [completePolyline.eq_2]
  split
  next heq =>
    rw [h1] at heq
    simp at heq
  next s1x heq =>
    rw [h1] at heq
    simp only [Option.some.injEq] at heq
    subst heq
    split
    next heq2 =>
      rw [h2] at heq2
      simp at heq2
    next s2x heq2 =>
      rw [h2] at heq2
      simp only [Option.some.injEq] at heq2
      subst heq2
      rfl

theorem readVarint_err_of_incomplete : ∀ (s : List Int), completeVarint s = none →
    ∀ (a : Int) (k : Nat), readVarint s a k = Except.error () := by
  intro s
  induction s with
  | nil => intro _ a k; rfl
  | cons c rest ih =>
    intro h a k
    unfold completeVarint at h
    by_cases hb : c - 64 < 31
    · simp [hb] at h
    · simp only [hb, if_false] at h
      unfold readVarint
      simp only [hb, if_false]
      exact ih h _ _

theorem readVarint_ok_of_complete : ∀ (s rest : List Int), completeVarint s = some rest →
    ∀ (a : Int) (k : Nat), ∃ r, readVarint s a k = Except.ok (r, rest) := by
  intro s
  induction s with
  | nil => intro rest h; simp [completeVarint] at h
  | cons c t ih =>
    intro rest h a k
    unfold completeVarint at h
    by_cases hb : c - 64 < 31
    · simp only [hb, if_true, Option.some.injEq] at h
      subst h
      exact ⟨a + (c - 64) * 2 ^ k, by unfold readVarint; simp [hb]⟩
    · simp only [hb, if_false] at h
      obtain ⟨r, hr⟩ := ih rest h (a + (c - 64) * 2 ^ k) (k + 5)
      exact ⟨r, by unfold readVarint; simp only [hb, if_false]; exact hr⟩

theorem completeVarint_err_of_readVarint : ∀ (s : List Int) (a : Int) (k : Nat),
    readVarint s a k = Except.error () → completeVarint s = none := by
  intro s
  induction s with
  | nil => intro a k _; rfl
  | cons c t ih =>
    intro a k h
    unfold readVarint at h
    by_cases hb : c - 64 < 31
    · simp [hb] at h
    · simp only [hb, if_false] at h
      unfold completeVarint
      simp only [hb, if_false]
      exact ih _ _ h

theorem decodeLoop_isOk_eq_complete (factor : ℚ) : ∀ (n : Nat) (s : List Int),
    s.length ≤ n → ∀ (lat lon : Int) (acc : List (ℚ × ℚ)),
    isOkE (decodeLoop factor s lat lon acc) = completePolyline s := by
  intro n
  induction n with
  | zero =>
    intro s hs lat lon acc
    have hnil : s = [] := List.length_eq_zero.mp (Nat.le_zero.mp hs)
    subst hnil
    rw [decodeLoop_nil, completePolyline_nil]
    rfl
  | succ n ih =>
    intro s hs lat lon acc
    cases s with
    | nil =>
      rw [decodeLoop_nil, completePolyline_nil]
      rfl
    | cons c rest =>
      cases hc1 : completeVarint (c :: rest) with
      | none =>
        rw [decodeLoop_cons_err1 factor c rest lat lon acc
          (readVarint_err_of_incomplete _ hc1 1 0)]
        rw [completePolyline_cons_none1 c rest hc1]
        rfl
      | some s1 =>
        obtain ⟨r1, hok1⟩ := readVarint_ok_of_complete _ _ hc1 1 0
        cases hc2 : completeVarint s1 with
        | none =>
          rw [decodeLoop_cons_err2 factor c rest lat lon acc r1 s1 hok1
            (readVarint_err_of_incomplete _ hc2 1 0)]
          rw [completePolyline_cons_none2 c rest s1 hc1 hc2]
          rfl
        | some s2 =>
          obtain ⟨r2, hok2⟩ := readVarint_ok_of_complete _ _ hc2 1 0
          rw [decodeLoop_cons_ok factor c rest lat lon acc r1 r2 s1 s2 hok1 hok2]
          rw [completePolyline_cons_step c rest s1 s2 hc1 hc2]
          have hlen : s2.length ≤ n := by
            have hA := readVarint_length _ _ _ _ _ hok1
            have hB := readVarint_length _ _ _ _ _ hok2
            simp only [List.length_cons] at hA hs
            omega
          exact ih s2 hlen _ _ _

theorem decodeLoop_factor_mul (f : ℚ) : ∀ (n : Nat) (s : List Int),
    s.length ≤ n → ∀ (lat lon : Int) (acc : List (ℚ × ℚ)),
    decodeLoop (f * 10) s lat lon (acc.map (fun p => (p.1 / 10, p.2 / 10))) =
      (decodeLoop f s lat lon acc).map (List.map (fun p => (p.1 / 10, p.2 / 10))) := by
  intro n
  induction n with
  | zero =>
    intro s hs lat lon acc
    have hnil : s = [] := List.length_eq_zero.mp (Nat.le_zero.mp hs)
    subst hnil
    rw [decodeLoop_nil, decodeLoop_nil]
    simp [Except.map, List.map_reverse]
  | succ n ih =>
    intro s hs lat lon acc
    cases s with
    | nil =>
      rw [decodeLoop_nil, decodeLoop_nil]
      simp [Except.map, List.map_reverse]
    | cons c rest =>
      cases hrv1 : readVarint (c :: rest) 1 0 with
      | error e =>
        cases e
        rw [decodeLoop_cons_err1 _ _ _ _ _ _ hrv1, decodeLoop_cons_err1 _ _ _ _ _ _ hrv1]
        rfl
      | ok v =>
        obtain ⟨r1, s1⟩ := v
        cases hrv2 : readVarint s1 1 0 with
        | error e =>
          cases e
          rw [decodeLoop_cons_err2 _ _ _ _ _ _ _ _ hrv1 hrv2,
            decodeLoop_cons_err2 _ _ _ _ _ _ _ _ hrv1 hrv2]
          rfl
        | ok w =>
          obtain ⟨r2, s2⟩ := w
          rw [decodeLoop_cons_ok _ _ _ _ _ _ _ _ _ _ hrv1 hrv2,
            decodeLoop_cons_ok _ _ _ _ _ _ _ _ _ _ hrv1 hrv2]
          have hlen : s2.length ≤ n := by
            have hA := readVarint_length _ _ _ _ _ hrv1
            have hB := readVarint_length _ _ _ _ _ hrv2
            simp only [List.length_cons] at hA hs
            omega
          have heq : ((((lat + decodeSigned r1 : Int) : ℚ) / (f * 10),
                ((lon + decodeSigned r2 : Int) : ℚ) / (f * 10)) ::
                acc.map (fun p => (p.1 / 10, p.2 / 10)))
              = ((((lat + decodeSigned r1 : Int) : ℚ) / f,
                  ((lon + decodeSigned r2 : Int) : ℚ) / f) :: acc).map
                  (fun p => (p.1 / 10, p.2 / 10)) := by
            simp [div_div]
          rw [heq]
          exact ih s2 hlen _ _ _

/-- Claim C6: decoding fails exactly on the inputs that end mid-sequence:
the decoder succeeds precisely when the character codes form a complete
sequence of latitude/longitude varint pairs (`completePolyline`), so a
string ending inside a continuation run, or after a latitude delta with no
longitude delta, yields the error (Python's `IndexError`, the spec's
`MalformedPolylineError`) and never a partial point list; the embedded
scan consumes only in-bounds characters by construction. -/
theorem c6_truncated_decode_fails (encoded : String) (precision : Nat) :
    isOkE (decodePolyline encoded precision) = completePolyline (strCodes encoded) := by
  unfold decodePolyline
  exact decodeLoop_isOk_eq_complete _ (strCodes encoded).length _ le_rfl 0 0 []

/-- Claim C10: precision only scales the final division: decoding at
precision 6 returns exactly the precision-5 coordinates divided by 10,
componentwise (in exact rational arithmetic, which this embedding uses for
Python floats), and in particular succeeds exactly when precision 5
succeeds — so the call sites' retry at precision 6 can never succeed where
precision 5 failed. -/
theorem c10_precision_scaling (encoded : String) :
    decodePolyline encoded 6 =
      (decodePolyline encoded 5).map (List.map (fun p => (p.1 / 10, p.2 / 10)))
    ∧ isOkE (decodePolyline encoded 6) = isOkE (decodePolyline encoded 5) := by
  have hmain : decodePolyline encoded 6 =
      (decodePolyline encoded 5).map (List.map (fun p => (p.1 / 10, p.2 / 10))) := by
    unfold decodePolyline
    rw [show ((10 : ℚ) ^ (6 : Nat)) = (10 : ℚ) ^ (5 : Nat) * 10 by norm_num]
    rw [show ([] : List (ℚ × ℚ)) =
      ([] : List (ℚ × ℚ)).map (fun p => (p.1 / 10, p.2 / 10)) from rfl]
    exact decodeLoop_factor_mul _ (strCodes encoded).length _ le_rfl 0 0 []
  refine ⟨hmain, ?_⟩
  rw [hmain]
  cases decodePolyline encoded 5 <;> rfl

end HikingRoutes
